import Mathlib

/-!
Shallow embedding of `quarantine` (src/src/main.rs), a CLI that provisions a
disposable container, relays terminal I/O into an interactive shell inside it,
and tears the container down afterwards.  Strings are modelled as `List Char`;
calls to the container engine are modelled as emitted actions; the event
streams consumed by the program are modelled as lists of `Except`-wrapped
items, mirroring `Stream::next` yielding `Option<Result<_, _>>`.
-/

namespace Quarantine

/-- Strings are modelled as lists of characters. -/
abbrev Str := List Char

/-- Errors surfaced by the engine client (`bollard::errors::Error`).  The
embedding only distinguishes the classes the spec names: a transport-level
failure and a local I/O failure. -/
inductive BollardError where
  | transportError
  | ioError
deriving DecidableEq

/-- `name.trim_start_matches("/")` from main.rs line 111: Rust's
`trim_start_matches` removes the matching prefix repeatedly, so every leading
slash is stripped. -/
def trim_start_matches_slash : Str → Str
  | [] => []
  | c :: rest => if c = '/' then trim_start_matches_slash rest else c :: rest

/-- `state.to_lowercase()` from main.rs line 113 (the states compared against
are ASCII, where `Char.toLower` agrees with Rust's `to_lowercase`). -/
def to_lowercase (s : Str) : Str := s.map Char.toLower

/-- Modelled from the spec: "stripping a single leading path-separator
character ... stripping removes at most one leading separator."  Used only to
compare the spec's wording with the source's `trim_start_matches`. -/
def strip_single_leading_slash : Str → Str
  | '/' :: rest => rest
  | l => l

/-- `format!("quarantine-{}", image_name.replace(":", "-"))` from main.rs
line 92: `str::replace` with the one-character pattern ":" rewrites every
colon (and nothing else) to a dash. -/
def container_name (image_name : Str) : Str :=
  "quarantine-".data ++ image_name.map (fun c => if c = ':' then '-' else c)

/-! ## Runtime resolution (main.rs lines 29-57) -/

/-- The structured content of the log lines emitted while resolving the
runtime (`tracing::info!`/`tracing::warn!`, main.rs lines 32-54); each
constructor records the data interpolated into the corresponding format
string. -/
inductive RuntimeLog where
  | infoUsing (runtime : Str)
  | infoUsingDefault (runtime : Str)
  | warnNotFound (requested default_runtime : Str)
  | warnAvailable (available : List Str)
deriving DecidableEq

/-- True for the `tracing::warn!` lines, false for the `tracing::info!`
lines. -/
def is_warning_log : RuntimeLog → Bool
  | .warnNotFound _ _ => true
  | .warnAvailable _ => true
  | _ => false

/-- The `match runtime` expression of main.rs lines 29-57: resolves the
requested runtime against the keys of `info.runtimes` and returns the chosen
runtime together with the log lines emitted.  `available_runtimes` is the key
sequence of the engine's runtime map
(`available_runtimes.contains_key(&runtime)` is list membership; the second
warning enumerates `available_runtimes.keys()`). -/
def resolve_runtime (requested : Option Str) (available_runtimes : List Str)
    (default_runtime : Str) : Str × List RuntimeLog :=
  match requested with
  | some r =>
    if available_runtimes.contains r then
      (r, [RuntimeLog.infoUsing r])
    else
      (default_runtime,
        [RuntimeLog.warnNotFound r default_runtime,
         RuntimeLog.warnAvailable available_runtimes])
  | none => (default_runtime, [RuntimeLog.infoUsingDefault default_runtime])

/-! ## Image pull (main.rs lines 59-90) -/

/-- `bollard::secret::ErrorDetail`: optional code and message attached to a
pull-progress error. -/
structure ErrorDetail where
  code : Option Int
  message : Option Str
deriving DecidableEq

/-- One pull-progress event (`CreateImageInfo`): an optional error payload
with optional detail, otherwise id/status/progress fields. -/
structure PullResult where
  error : Option Str
  error_detail : Option ErrorDetail
  id : Option Str
  status : Option Str
  progress : Option Str
deriving DecidableEq

/-- The structured content of the log lines emitted by the pull loop
(main.rs lines 73-87). -/
inductive PullLog where
  | errorLog (e : Str)
  | errorDetailLog (code : Int) (message : Str)
  | progressLog (id status progress : Str)
deriving DecidableEq

/-- The body of the pull loop for one event (main.rs lines 72-88): an error
payload is logged (with its detail when both code and message are present),
any other event logs id/status/progress with empty-string defaults. -/
def pull_logs_for (r : PullResult) : List PullLog :=
  match r.error with
  | some e =>
    PullLog.errorLog e ::
      (match r.error_detail with
       | some d =>
         match d.code, d.message with
         | some code, some message => [PullLog.errorDetailLog code message]
         | _, _ => []
       | none => [])
  | none =>
    [PullLog.progressLog (r.id.getD []) (r.status.getD []) (r.progress.getD [])]

/-- `while let Some(Ok(pull_result)) = stream.next().await` (main.rs
line 71): the loop processes events while the stream yields `Some(Ok(_))`;
a stream-level `Err` fails the pattern and ends the loop, with the error
discarded.  Returns the log trace. -/
def pull_loop : List (Except BollardError PullResult) → List PullLog
  | [] => []
  | .error _ :: _ => []
  | .ok r :: rest => pull_logs_for r ++ pull_loop rest

/-- The whole image-pull block (main.rs lines 59-90).  No statement in the
block applies `?` to an item of the stream, so the block never propagates an
error: it always completes and `main` continues.  The value is the log
trace. -/
def create_image_block (events : List (Except BollardError PullResult)) :
    Except BollardError (List PullLog) :=
  Except.ok (pull_loop events)

/-! ## Cleanup pass (main.rs lines 94-123) -/

/-- One entry of `docker.list_containers` (`ContainerSummary`): the fields
the cleanup pass reads.  `names` is `Option<Vec<String>>`, `state` is
`Option<String>`. -/
structure ContainerSummary where
  names : Option (List Str)
  state : Option Str
deriving DecidableEq

/-- An engine call issued by the program, recorded with the name it is
issued against (the cleanup pass and the teardown both address the container
by `container_name`). -/
inductive Action where
  | stopContainer (name : Str)
  | removeContainer (name : Str)
deriving DecidableEq

/-- The match test of main.rs line 111:
`name.trim_start_matches("/") == container_name`. -/
def name_matches (cn name : Str) : Bool :=
  trim_start_matches_slash name == cn

/-- The test of main.rs line 113: `state.to_lowercase() == "running"`. -/
def is_running_state (state : Str) : Bool :=
  to_lowercase state == "running".data

/-- The body of the inner `for name in container.names` loop (main.rs lines
110-121) for one name, given the container's reported state: when the name
matches and a state is reported, a stop is issued if the state is "running"
(case-insensitively) and a remove is always issued; otherwise nothing
happens. -/
def cleanup_actions_for_name (cn : Str) (state : Option Str) (name : Str) :
    List Action :=
  if name_matches cn name then
    match state with
    | some st =>
      (if is_running_state st then [Action.stopContainer cn] else []) ++
        [Action.removeContainer cn]
    | none => []
  else []

/-- The actions the cleanup pass issues while visiting one listed container
(main.rs lines 109-122): the inner loop runs its body once per name in
`container.names.unwrap_or_default()`. -/
def cleanup_actions_for_container (cn : Str) (c : ContainerSummary) :
    List Action :=
  (c.names.getD []).flatMap (cleanup_actions_for_name cn c.state)

/-- The whole cleanup pass (main.rs lines 94-123) over the listed
containers, as the sequence of engine calls issued. -/
def ensure_clean (cn : Str) (containers : List ContainerSummary) :
    List Action :=
  containers.flatMap (cleanup_actions_for_container cn)

/-! ## Exec attach (main.rs lines 171-204) -/

/-- One frame of the container's multiplexed output
(`bollard::container::LogOutput`). -/
inductive LogOutput where
  | stdOut (message : Str)
  | stdErr (message : Str)
  | stdIn (message : Str)
  | console (message : Str)
deriving DecidableEq

/-- `bollard::exec::StartExecResults`: either an attached bidirectional
stream pair or a detached result.  The output stream is modelled as the list
of items it will yield; the input sink as the list of chunks it will
receive. -/
inductive StartExecResults where
  | attached (output : List (Except BollardError LogOutput)) (input : List Str)
  | detached

/-- The `let StartExecResults::Attached { output, input } = start_exec else
{ return Err(...) }` of main.rs lines 198-204: a detached result fails with
the session-attach error message, an attached result yields the stream
pair. -/
def start_exec_attached (r : StartExecResults) :
    Except Str (List (Except BollardError LogOutput) × List Str) :=
  match r with
  | .attached output input => Except.ok (output, input)
  | .detached => Except.error "failed to execute shell inside container".data

/-! ## Relay and teardown (main.rs lines 206-256) -/

/-- Which of the three `tokio::select!` arms (main.rs lines 242-246)
resolves first: the ctrl-c signal, the input copy loop, or the output copy
loop. -/
inductive SelectWinner where
  | ctrlC
  | inputDone
  | outputDone
deriving DecidableEq

/-- The `tokio::select!` of main.rs lines 242-246, as a function of which
arm wins and of the results the two copy loops would produce: the ctrl-c arm
has an empty body (success), the other arms apply `?` to the winning loop's
result; the losing arms are dropped, so their results never contribute. -/
def relay_select (w : SelectWinner)
    (input_result output_result : Except BollardError Unit) :
    Except BollardError Unit :=
  match w with
  | .ctrlC => Except.ok ()
  | .inputDone => input_result
  | .outputDone => output_result

/-- The input copy loop (main.rs lines 212-224) over the sequence of read
results from stdin: a read error propagates, a zero-length read breaks with
success, otherwise the chunk is forwarded and the loop continues (forwarding
to the session sink is modelled as always succeeding). -/
def input_loop : List (Except BollardError Str) → Except BollardError Unit
  | [] => Except.ok ()
  | .error e :: _ => Except.error e
  | .ok chunk :: rest => if chunk = [] then Except.ok () else input_loop rest

/-- The teardown block (main.rs lines 249-256): stop the container, then
remove it, both addressed by `container_name`. -/
def teardown_actions (cn : Str) : List Action :=
  [Action.stopContainer cn, Action.removeContainer cn]

/-- What follows the `tokio::select!` in `main` (main.rs lines 242-256): the
winning arm's `result?` returns the error from `main` at once, so the
teardown block runs only when the relay's result is success.  The value is
the list of teardown calls issued. -/
def main_after_relay (cn : Str) (relay_result : Except BollardError Unit) :
    Except BollardError (List Action) :=
  match relay_result with
  | .ok _ => Except.ok (teardown_actions cn)
  | .error e => Except.error e

/-! ## Helper lemmas -/

/-- `trim_start_matches_slash` strips exactly the longest run of leading
slashes. -/
theorem trim_start_matches_slash_eq_dropWhile (l : Str) :
    trim_start_matches_slash l = l.dropWhile (fun c => c == '/') := by
  induction l with
  | nil => rfl
  | cons c rest ih =>
    by_cases h : c = '/'
    · simp [trim_start_matches_slash, h, List.dropWhile_cons, ih]
    · simp [trim_start_matches_slash, h, List.dropWhile_cons]

/-- Membership of the stop call in the actions for one name. -/
theorem stop_mem_cleanup_for_name (cn : Str) (st? : Option Str) (name : Str) :
    Action.stopContainer cn ∈ cleanup_actions_for_name cn st? name ↔
      name_matches cn name = true ∧
        ∃ s, st? = some s ∧ is_running_state s = true := by
  unfold cleanup_actions_for_name
  by_cases h : name_matches cn name
  · cases st? with
    | none => simp [h]
    | some st =>
      by_cases hr : is_running_state st
      · simp [h, hr]
      · simp [h, hr]
  · simp [h]

/-- Membership of the remove call in the actions for one name. -/
theorem remove_mem_cleanup_for_name (cn : Str) (st? : Option Str) (name : Str) :
    Action.removeContainer cn ∈ cleanup_actions_for_name cn st? name ↔
      name_matches cn name = true ∧ st?.isSome = true := by
  unfold cleanup_actions_for_name
  by_cases h : name_matches cn name
  · cases st? with
    | none => simp [h]
    | some st =>
      by_cases hr : is_running_state st
      · simp [h, hr]
      · simp [h, hr]
  · simp [h]

/-- With no reported state, a name contributes no actions. -/
theorem cleanup_for_name_state_none (cn : Str) (name : Str) :
    cleanup_actions_for_name cn none name = [] := by
  unfold cleanup_actions_for_name
  by_cases h : name_matches cn name <;> simp [h]

/-- Count of remove calls contributed by one name. -/
theorem count_remove_cleanup_for_name (cn : Str) (st? : Option Str)
    (name : Str) :
    (cleanup_actions_for_name cn st? name).count (Action.removeContainer cn) =
      if name_matches cn name && st?.isSome then 1 else 0 := by
  unfold cleanup_actions_for_name
  by_cases h : name_matches cn name
  · cases st? with
    | none => simp [h]
    | some st =>
      by_cases hr : is_running_state st
      · simp [h, hr, List.count_cons, List.count_nil]
      · simp [h, hr, List.count_cons, List.count_nil]
  · simp [h]

/-- Count of stop calls contributed by one name. -/
theorem count_stop_cleanup_for_name (cn : Str) (st? : Option Str)
    (name : Str) :
    (cleanup_actions_for_name cn st? name).count (Action.stopContainer cn) =
      if name_matches cn name && (st?.map is_running_state).getD false
      then 1 else 0 := by
  unfold cleanup_actions_for_name
  by_cases h : name_matches cn name
  · cases st? with
    | none => simp [h]
    | some st =>
      by_cases hr : is_running_state st
      · simp [h, hr, List.count_cons, List.count_nil]
      · simp [h, hr, List.count_cons, List.count_nil]
  · simp [h]

/-- An all-`Ok` prefix of the event stream is consumed in full before the
rest of the stream is considered. -/
theorem pull_loop_append_of_ok (pre rest : List (Except BollardError PullResult))
    (h : ∀ ev ∈ pre, ev.isOk = true) :
    pull_loop (pre ++ rest) = pull_loop pre ++ pull_loop rest := by
  induction pre with
  | nil => rfl
  | cons ev pre ih =>
    cases ev with
    | ok r =>
      simp only [List.cons_append, pull_loop, List.append_assoc]
      exact congrArg (fun l => pull_logs_for r ++ l)
        (ih (fun e he => h e (List.mem_cons_of_mem _ he)))
    | error e =>
      have := h (Except.error e) (List.mem_cons_self _ _)
      simp [Except.isOk, Except.toBool] at this

/-- Over an all-`Ok` stream the pull loop logs every event in order. -/
theorem pull_loop_eq_flatMap_of_ok (events : List (Except BollardError PullResult))
    (h : ∀ ev ∈ events, ev.isOk = true) :
    pull_loop events =
      events.flatMap (fun ev =>
        match ev with
        | .ok r => pull_logs_for r
        | .error _ => []) := by
  induction events with
  | nil => rfl
  | cons ev rest ih =>
    cases ev with
    | ok r =>
      simp only [pull_loop, List.flatMap_cons]
      rw [ih (fun e he => h e (List.mem_cons_of_mem _ he))]
    | error e =>
      have := h (Except.error e) (List.mem_cons_self _ _)
      simp [Except.isOk, Except.toBool] at this

/-- An event with an error payload contributes an error log line. -/
theorem errorLog_mem_pull_logs_for (r : PullResult) (e : Str)
    (h : r.error = some e) : PullLog.errorLog e ∈ pull_logs_for r := by
  unfold pull_logs_for
  rw [h]
  exact List.mem_cons_self _ _

/-! ## Claims -/

/-- C1 (counterexample): the claim says the stop-and-remove teardown is
attempted after every relay outcome, including an IOError from a copy loop.
In the code, the winning `select!` arm applies `?` to the loop's result, so
an error returns from `main` before the teardown block: with the input copy
loop ending in an I/O error, `main` propagates the error and issues no
teardown call. -/
theorem c1_counterexample :
    main_after_relay "quarantine-alpine-3.19".data
        (relay_select SelectWinner.inputDone
          (Except.error BollardError.ioError) (Except.ok ()))
      = Except.error BollardError.ioError := rfl

/-- C1 (amended): teardown (stop then remove of the identity-named
container) is attempted when the relay ends by cancellation or with success;
when the winning copy loop ends with an error, that error propagates from
`main` at once and the teardown block is skipped. -/
theorem c1_teardown_after_success_or_cancel (cn : Str) (w : SelectWinner)
    (input_result output_result : Except BollardError Unit) :
    main_after_relay cn (relay_select SelectWinner.ctrlC input_result output_result)
      = Except.ok (teardown_actions cn)
  ∧ (relay_select w input_result output_result = Except.ok () →
      main_after_relay cn (relay_select w input_result output_result)
        = Except.ok (teardown_actions cn))
  ∧ (∀ e, relay_select w input_result output_result = Except.error e →
      main_after_relay cn (relay_select w input_result output_result)
        = Except.error e) := by
  refine ⟨rfl, ?_, ?_⟩
  · intro h
    rw [h]
    rfl
  · intro e h
    rw [h]
    rfl

/-- C1 (witness): the amended theorem applied to a successful input loop. -/
theorem c1_witness :
    relay_select SelectWinner.inputDone (Except.ok ()) (Except.ok ())
      = Except.ok ()
  ∧ main_after_relay "quarantine-alpine-3.19".data
        (relay_select SelectWinner.inputDone (Except.ok ()) (Except.ok ()))
      = Except.ok (teardown_actions "quarantine-alpine-3.19".data) :=
  ⟨rfl,
    (c1_teardown_after_success_or_cancel "quarantine-alpine-3.19".data
      SelectWinner.inputDone (Except.ok ()) (Except.ok ())).2.1 rfl⟩

/-- C2 (counterexample): the claim says a stream-level transport failure
makes provisioning propagate a TransportError instead of completing
successfully.  In the code the `while let Some(Ok(_))` pattern fails on an
`Err` item and the loop simply ends: the pull block completes successfully
(with an empty log trace) even when the only stream item is a transport
error. -/
theorem c2_counterexample :
    create_image_block [Except.error BollardError.transportError]
      = Except.ok [] := rfl

/-- C2 (amended): when the event stream yields a transport-level error after
an all-`Ok` prefix, the pull loop stops consuming at that point, the error
is discarded, and the provisioning block completes successfully with the
logs of the prefix. -/
theorem c2_transport_error_swallowed
    (pre post : List (Except BollardError PullResult)) (e : BollardError)
    (h : ∀ ev ∈ pre, ev.isOk = true) :
    pull_loop (pre ++ Except.error e :: post) = pull_loop pre
  ∧ create_image_block (pre ++ Except.error e :: post)
      = Except.ok (pull_loop pre) := by
  have h1 : pull_loop (pre ++ Except.error e :: post)
      = pull_loop pre ++ pull_loop (Except.error e :: post) :=
    pull_loop_append_of_ok pre (Except.error e :: post) h
  have h2 : pull_loop (Except.error e :: post) = [] := rfl
  rw [h2, List.append_nil] at h1
  exact ⟨h1, by rw [create_image_block, h1]⟩

/-- C2 (witness): the amended theorem applied to a one-event prefix followed
by a transport failure. -/
theorem c2_witness :
    (∀ ev ∈ ([Except.ok ⟨none, none, none, none, none⟩] :
        List (Except BollardError PullResult)), ev.isOk = true)
  ∧ create_image_block
        (([Except.ok ⟨none, none, none, none, none⟩] :
            List (Except BollardError PullResult)) ++
          Except.error BollardError.transportError :: [])
      = Except.ok
          (pull_loop ([Except.ok ⟨none, none, none, none, none⟩] :
            List (Except BollardError PullResult))) :=
  ⟨by decide,
    (c2_transport_error_swallowed
      ([Except.ok ⟨none, none, none, none, none⟩] :
        List (Except BollardError PullResult)) []
      BollardError.transportError (by decide)).2⟩

/-- C3 (counterexample): the claim says the cleanup match strips at most one
leading path separator.  The code's `trim_start_matches("/")` strips every
leading slash: the name `//quarantine-a` is treated as a match for the
identity `quarantine-a` (and the container is acted upon), although
stripping a single leading separator leaves `/quarantine-a`, which differs
from the identity. -/
theorem c3_counterexample :
    name_matches "quarantine-a".data "//quarantine-a".data = true
  ∧ strip_single_leading_slash "//quarantine-a".data ≠ "quarantine-a".data
  ∧ cleanup_actions_for_container "quarantine-a".data
      ⟨some ["//quarantine-a".data], some "running".data⟩ ≠ [] := by
  decide

/-- C3 (amended): a name is considered a match for the identity exactly when
it equals the identity after stripping every leading path-separator
character (the longest run of leading slashes), not just a single one. -/
theorem c3_match_strips_all_leading_separators (cn name : Str) :
    name_matches cn name = true ↔
      name.dropWhile (fun c => c == '/') = cn := by
  unfold name_matches
  rw [trim_start_matches_slash_eq_dropWhile]
  exact beq_iff_eq

/-- C3 (witness): the amended theorem applied to a doubly-slashed name. -/
theorem c3_witness :
    ("//quarantine-a".data).dropWhile (fun c => c == '/') = "quarantine-a".data
  ∧ name_matches "quarantine-a".data "//quarantine-a".data = true :=
  ⟨by decide,
    (c3_match_strips_all_leading_separators "quarantine-a".data
      "//quarantine-a".data).2 (by decide)⟩

/-- C4: over a pull event stream with no transport-level failure, the
provisioning block returns success, the loop consumes and logs every event
in order, and every event carrying an error payload has its error logged. -/
theorem c4_pull_tolerance (events : List (Except BollardError PullResult))
    (h : ∀ ev ∈ events, ev.isOk = true) :
    create_image_block events = Except.ok (pull_loop events)
  ∧ pull_loop events =
      events.flatMap (fun ev =>
        match ev with
        | .ok r => pull_logs_for r
        | .error _ => [])
  ∧ ∀ r e, Except.ok r ∈ events → r.error = some e →
      PullLog.errorLog e ∈ pull_loop events := by
  refine ⟨rfl, pull_loop_eq_flatMap_of_ok events h, ?_⟩
  intro r e hmem herr
  rw [pull_loop_eq_flatMap_of_ok events h]
  exact List.mem_flatMap.2
    ⟨Except.ok r, hmem, errorLog_mem_pull_logs_for r e herr⟩

/-- C4 (witness): the theorem applied to a stream with two error-tagged
events and no transport failure: provisioning still returns success. -/
theorem c4_witness :
    (∀ ev ∈ ([Except.ok ⟨some "layer failed".data, none, none, none, none⟩,
        Except.ok ⟨some "layer failed again".data,
          some ⟨some 5, some "detail".data⟩, none, none, none⟩] :
        List (Except BollardError PullResult)), ev.isOk = true)
  ∧ create_image_block
        ([Except.ok ⟨some "layer failed".data, none, none, none, none⟩,
          Except.ok ⟨some "layer failed again".data,
            some ⟨some 5, some "detail".data⟩, none, none, none⟩] :
          List (Except BollardError PullResult))
      = Except.ok
          (pull_loop
            ([Except.ok ⟨some "layer failed".data, none, none, none, none⟩,
              Except.ok ⟨some "layer failed again".data,
                some ⟨some 5, some "detail".data⟩, none, none, none⟩] :
              List (Except BollardError PullResult))) :=
  ⟨by decide,
    (c4_pull_tolerance
      ([Except.ok ⟨some "layer failed".data, none, none, none, none⟩,
        Except.ok ⟨some "layer failed again".data,
          some ⟨some 5, some "detail".data⟩, none, none, none⟩] :
        List (Except BollardError PullResult))
      (by decide)).1⟩

/-- C5: for a listed container with a name matching the identity, a stop is
issued if and only if a state is reported whose case-insensitive value is
"running"; a remove is issued if and only if any state is reported; a
container with no reported state receives no action at all; and every action
issued for the container is part of the cleanup pass's trace, so after the
pass every matching container with a reported state has had a remove
issued. -/
theorem c5_cleanup_state_conditions (cn : Str) (c : ContainerSummary)
    (containers : List ContainerSummary) (hmem : c ∈ containers)
    (hmatch : ∃ name ∈ c.names.getD [], name_matches cn name = true) :
    (Action.stopContainer cn ∈ cleanup_actions_for_container cn c ↔
        ∃ s, c.state = some s ∧ is_running_state s = true)
  ∧ (Action.removeContainer cn ∈ cleanup_actions_for_container cn c ↔
        c.state.isSome = true)
  ∧ (c.state = none → cleanup_actions_for_container cn c = [])
  ∧ (∀ a ∈ cleanup_actions_for_container cn c, a ∈ ensure_clean cn containers) := by
  obtain ⟨nm, hnm, hm⟩ := hmatch
  refine ⟨⟨?_, ?_⟩, ⟨?_, ?_⟩, ?_, ?_⟩
  · intro hstop
    obtain ⟨name, _, hin⟩ := List.mem_flatMap.1 hstop
    exact ((stop_mem_cleanup_for_name cn c.state name).1 hin).2
  · intro hst
    exact List.mem_flatMap.2
      ⟨nm, hnm, (stop_mem_cleanup_for_name cn c.state nm).2 ⟨hm, hst⟩⟩
  · intro hrem
    obtain ⟨name, _, hin⟩ := List.mem_flatMap.1 hrem
    exact ((remove_mem_cleanup_for_name cn c.state name).1 hin).2
  · intro hst
    exact List.mem_flatMap.2
      ⟨nm, hnm, (remove_mem_cleanup_for_name cn c.state nm).2 ⟨hm, hst⟩⟩
  · intro hnone
    refine List.eq_nil_iff_forall_not_mem.2 (fun a ha => ?_)
    obtain ⟨name, _, hin⟩ := List.mem_flatMap.1 ha
    rw [hnone, cleanup_for_name_state_none] at hin
    exact List.not_mem_nil a hin
  · intro a ha
    exact List.mem_flatMap.2 ⟨c, hmem, ha⟩

/-- C5 (witness): the theorem applied to one listed container named
`/quarantine-a` in state `Running`. -/
theorem c5_witness :
    ((⟨some ["/quarantine-a".data], some "Running".data⟩ : ContainerSummary) ∈
        ([⟨some ["/quarantine-a".data], some "Running".data⟩] :
          List ContainerSummary))
  ∧ (∃ name ∈ (ContainerSummary.mk (some ["/quarantine-a".data])
        (some "Running".data)).names.getD [],
        name_matches "quarantine-a".data name = true)
  ∧ Action.removeContainer "quarantine-a".data ∈
      cleanup_actions_for_container "quarantine-a".data
        ⟨some ["/quarantine-a".data], some "Running".data⟩ :=
  ⟨by decide, by decide,
    ((c5_cleanup_state_conditions "quarantine-a".data
      ⟨some ["/quarantine-a".data], some "Running".data⟩
      [⟨some ["/quarantine-a".data], some "Running".data⟩]
      (by decide) (by decide)).2.1).2 rfl⟩

/-- C6: runtime resolution returns the default with no warning when nothing
is requested, returns the requested runtime unchanged when it is among the
available ones, and otherwise returns the default while warning with the
missing runtime and exactly the members of the available set. -/
theorem c6_resolve_runtime_contract (r dflt : Str) (avail : List Str) :
    resolve_runtime none avail dflt = (dflt, [RuntimeLog.infoUsingDefault dflt])
  ∧ ((resolve_runtime none avail dflt).2.all (fun l => ! is_warning_log l) = true)
  ∧ (r ∈ avail →
      resolve_runtime (some r) avail dflt = (r, [RuntimeLog.infoUsing r]))
  ∧ (r ∉ avail →
      resolve_runtime (some r) avail dflt =
        (dflt, [RuntimeLog.warnNotFound r dflt,
                RuntimeLog.warnAvailable avail])) := by
  refine ⟨rfl, rfl, ?_, ?_⟩
  · intro h
    have hc : avail.contains r = true := by simpa using h
    simp only [resolve_runtime, hc, if_true]
  · intro h
    have hc : avail.contains r = false := by simpa using h
    simp only [resolve_runtime, hc, if_false]
    rfl

/-- C6 (witness): the theorem applied to the spec's scenario, requested
runtime `runsc` absent from the available set `{runc}`. -/
theorem c6_witness :
    ("runsc".data ∉ ["runc".data])
  ∧ resolve_runtime (some "runsc".data) ["runc".data] "runc".data =
      ("runc".data,
        [RuntimeLog.warnNotFound "runsc".data "runc".data,
         RuntimeLog.warnAvailable ["runc".data]]) :=
  ⟨by decide,
    (c6_resolve_runtime_contract "runsc".data "runc".data
      ["runc".data]).2.2.2 (by decide)⟩

/-- C7: the container identity is a pure deterministic function of the image
reference: it is `quarantine-` followed by the image reference with each
position holding a dash where the image has a colon and the original
character everywhere else, so colons are the only character rewritten. -/
theorem c7_container_name_colon_rewrite (I : Str) (i : Nat) :
    container_name I = container_name I
  ∧ (container_name I).take 11 = "quarantine-".data
  ∧ (container_name I).length = 11 + I.length
  ∧ (container_name I)[11 + i]? =
      (I[i]?).map (fun c => if c = ':' then '-' else c) := by
  refine ⟨rfl, ?_, ?_, ?_⟩
  · show ("quarantine-".data ++ _).take 11 = _
    rw [show (11 : Nat) = ("quarantine-".data).length from rfl]
    exact List.take_left _ _
  · show ("quarantine-".data ++ _).length = _
    rw [List.length_append, List.length_map,
        show ("quarantine-".data).length = 11 from rfl]
  · show ("quarantine-".data ++ I.map _)[11 + i]? = _
    rw [List.getElem?_append_right (by
      rw [show ("quarantine-".data).length = 11 from rfl]
      exact Nat.le_add_right 11 i)]
    rw [show ("quarantine-".data).length = 11 from rfl,
        Nat.add_sub_cancel_left 11 i]
    exact List.getElem?_map _ _ _

/-- C8: when the cancellation signal wins the three-way select, the relay
returns success regardless of the results the two copy loops would have
produced (both loops are abandoned, surfacing no error), in particular for
any input-loop run. -/
theorem c8_cancellation_wins_success
    (input_result output_result : Except BollardError Unit)
    (chunks : List (Except BollardError Str)) :
    relay_select SelectWinner.ctrlC input_result output_result = Except.ok ()
  ∧ relay_select SelectWinner.ctrlC (input_loop chunks) output_result
      = Except.ok () :=
  ⟨rfl, rfl⟩

/-- C9: starting the exec instance with a detached result fails with the
session-attach error before any relay, while an attached bidirectional
stream pair proceeds. -/
theorem c9_detached_start_fails_attach :
    start_exec_attached StartExecResults.detached
      = Except.error "failed to execute shell inside container".data
  ∧ ∀ output input, start_exec_attached (StartExecResults.attached output input)
      = Except.ok (output, input) :=
  ⟨rfl, fun _ _ => rfl⟩

/-- Count of remove calls issued while visiting a list of names. -/
theorem count_remove_cleanup_flatMap (cn : Str) (st? : Option Str)
    (L : List Str) :
    (L.flatMap (cleanup_actions_for_name cn st?)).count
        (Action.removeContainer cn) =
      if st?.isSome then L.countP (fun n => name_matches cn n) else 0 := by
  induction L with
  | nil => cases st? <;> simp
  | cons n L ih =>
    rw [List.flatMap_cons, List.count_append, ih,
        count_remove_cleanup_for_name, List.countP_cons]
    cases st? with
    | none => simp
    | some st =>
      by_cases h : name_matches cn n <;> simp [h]
      all_goals omega

/-- Count of stop calls issued while visiting a list of names. -/
theorem count_stop_cleanup_flatMap (cn : Str) (st? : Option Str)
    (L : List Str) :
    (L.flatMap (cleanup_actions_for_name cn st?)).count
        (Action.stopContainer cn) =
      if (st?.map is_running_state).getD false then
        L.countP (fun n => name_matches cn n) else 0 := by
  induction L with
  | nil => cases st? <;> simp
  | cons n L ih =>
    rw [List.flatMap_cons, List.count_append, ih,
        count_stop_cleanup_for_name, List.countP_cons]
    cases st? with
    | none => simp
    | some st =>
      by_cases h : name_matches cn n <;>
        by_cases hr : is_running_state st <;> simp [h, hr]
      all_goals omega

/-- C10: the cleanup pass repeats its stop/remove once per matching name,
not once per matching container: the remove (and, for a running state, the
stop) issued for a listed container is issued as many times as the
container's names list has entries matching the identity, always against
the identity-named container. -/
theorem c10_actions_repeat_per_matching_name (cn : Str) (c : ContainerSummary) :
    (cleanup_actions_for_container cn c).count (Action.removeContainer cn) =
      (if c.state.isSome then
        (c.names.getD []).countP (fun n => name_matches cn n) else 0)
  ∧ (cleanup_actions_for_container cn c).count (Action.stopContainer cn) =
      (if (c.state.map is_running_state).getD false then
        (c.names.getD []).countP (fun n => name_matches cn n) else 0) :=
  ⟨count_remove_cleanup_flatMap cn c.state _,
   count_stop_cleanup_flatMap cn c.state _⟩

end Quarantine
